import Mathlib

/-!
Shallow embedding of the normalization and classification pipeline of the
globalWatch repository (src/src/lib/api.ts), together with proofs of the
specification's testable properties.

The embedding follows `normalizeFBIItem` and `getAllFBIWantedData` line by
line: JavaScript truthiness on optional strings and numbers is made explicit,
`String.prototype.includes` becomes a substring test, `Array.from(new Set _)`
and `new Map` de-duplication become order-preserving dedup functions, and the
two regular expressions used for "vague subject" detection are modelled as
decidable matchers with backtracking semantics.
-/

/-- The apostrophe character, kept out of string literals. -/
def apos : String := String.singleton (Char.ofNat 39)

/-- JS `String.prototype.includes`: substring containment on char lists. -/
def containsSub (pat : List Char) : List Char → Bool
  | [] => pat.isEmpty
  | c :: rest => pat.isPrefixOf (c :: rest) || containsSub pat rest

/-- JS `hay.includes(pat)` on strings. -/
def strIncludes (hay pat : String) : Bool :=
  containsSub pat.data hay.data

/-- JS `String.prototype.toLowerCase` (ASCII case mapping), as a structural
map over the character list. -/
def jsToLower (s : String) : String :=
  String.mk (s.data.map Char.toLower)

/-- JS string truthiness followed by `|| dflt`: empty or missing falls back. -/
def strOr (o : Option String) (dflt : String) : String :=
  match o with
  | some s => if s == "" then dflt else s
  | none => dflt

/-- JS truthiness of an optional string (`undefined`, `null`, `""` falsy). -/
def strTruthy (o : Option String) : Bool :=
  match o with
  | some s => !(s == "")
  | none => false

/-- JS truthiness of an optional number (`undefined`, `null`, `0` falsy). -/
def natTruthy (o : Option Nat) : Bool :=
  match o with
  | some n => !(n == 0)
  | none => false

/-- Worker for `jsDedup`: keep each element not seen before, in order. -/
def jsDedupAux {α : Type} [DecidableEq α] (seen : List α) : List α → List α
  | [] => []
  | x :: xs =>
    if x ∈ seen then jsDedupAux seen xs
    else x :: jsDedupAux (x :: seen) xs

/-- `Array.from(new Set l)`: de-duplicate keeping first occurrences in order. -/
def jsDedup {α : Type} [DecidableEq α] (l : List α) : List α :=
  jsDedupAux [] l

/-- JS whitespace class `\s` (ASCII portion). -/
def jsSpace (c : Char) : Bool :=
  c == ' ' || c == '\t' || c == '\n' || c == '\r' || c.toNat == 11 || c.toNat == 12

/-- JS `String.prototype.trim`: strip whitespace from both ends. -/
def jsTrim (s : String) : String :=
  String.mk (((s.data.dropWhile jsSpace).reverse.dropWhile jsSpace).reverse)

/-- Regex class `[A-Za-z\s]`. -/
def alphaSpaceChar (c : Char) : Bool :=
  c.isAlpha || jsSpace c

/-- Regex class `\w` = `[A-Za-z0-9_]`. -/
def wordCharB (c : Char) : Bool :=
  c.isAlphanum || c == '_'

/-- The twelve month names of the months alternation in the source regex. -/
def monthNames : List (List Char) :=
  ["January", "February", "March", "April", "May", "June", "July",
   "August", "September", "October", "November", "December"].map String.data

/-- A month name matches at the head of `rest`, with a `\b` boundary after. -/
def monthAt (rest : List Char) : Bool :=
  monthNames.any fun m =>
    m.isPrefixOf rest &&
      (match rest.drop m.length with
       | [] => true
       | c :: _ => !(wordCharB c))

/-- Scan for `\bMonth\b`, tracking the previous character for the boundary. -/
def hasMonthScan : Option Char → List Char → Bool
  | _, [] => false
  | prev, c :: tail =>
      ((match prev with
        | none => true
        | some p => !(wordCharB p)) && monthAt (c :: tail))
      || hasMonthScan (some c) tail

def hasMonthWord (l : List Char) : Bool := hasMonthScan none l

/-- Regex `\d{4}`: four consecutive ASCII digits somewhere in the string. -/
def hasFourDigits : List Char → Bool
  | a :: b :: c :: d :: rest =>
      (a.isDigit && b.isDigit && c.isDigit && d.isDigit)
      || hasFourDigits (b :: c :: d :: rest)
  | _ => false

/-- Test of `/\b(?:January|...|December)\b|\d{4}|,/` against a raw string. -/
def reMonthYearComma (l : List Char) : Bool :=
  hasMonthWord l || hasFourDigits l || l.contains ','

/-- Backtracking `+` matcher: one or more characters satisfying `p`,
then the continuation. -/
def plusMatch (p : Char → Bool) (cont : List Char → Bool) : List Char → Bool
  | [] => false
  | c :: rest => p c && (cont rest || plusMatch p cont rest)

/-- Test of `/^[A-Za-z\s]+, [A-Za-z\s]+ \w+ \d{4}$/` against a raw string. -/
def reLocDate (l : List Char) : Bool :=
  plusMatch alphaSpaceChar
    (fun r1 =>
      match r1 with
      | c1 :: c2 :: r2 =>
          c1 == ',' && c2 == ' ' &&
          plusMatch alphaSpaceChar
            (fun r3 =>
              match r3 with
              | c3 :: r4 =>
                  c3 == ' ' &&
                  plusMatch wordCharB
                    (fun r5 =>
                      match r5 with
                      | c4 :: d1 :: d2 :: d3 :: d4 :: [] =>
                          c4 == ' ' && d1.isDigit && d2.isDigit &&
                          d3.isDigit && d4.isDigit
                      | _ => false) r4
              | _ => false) r2
      | _ => false) l

/-- `encodeURIComponent`: percent-encode every UTF-8 byte of every character
outside the unreserved set `A-Z a-z 0-9 - _ . ! ~ * ( )` and apostrophe. -/
def isUnreservedURI (c : Char) : Bool :=
  c.isAlphanum || [45, 95, 46, 33, 126, 42, 39, 40, 41].contains c.toNat

def hexDigitChar (n : Nat) : Char :=
  if n < 10 then Char.ofNat (48 + n) else Char.ofNat (55 + n)

def utf8BytesOf (n : Nat) : List Nat :=
  if n < 128 then [n]
  else if n < 2048 then [192 + n / 64, 128 + n % 64]
  else if n < 65536 then [224 + n / 4096, 128 + (n / 64) % 64, 128 + n % 64]
  else [240 + n / 262144, 128 + (n / 4096) % 64, 128 + (n / 64) % 64, 128 + n % 64]

def encodeURIComponentModel (s : String) : String :=
  String.mk ((s.data.map fun c =>
    if isUnreservedURI c then [c]
    else ((utf8BytesOf c.toNat).map fun b =>
      ['%', hexDigitChar (b / 16), hexDigitChar (b % 16)]).flatten).flatten)

/-- The closed classification enum of `types.ts` (9-value canonical profile). -/
inductive PersonClassification : Type
  | WANTED_CRIMINAL
  | CYBER_MOST_WANTED
  | CRIMES_AGAINST_CHILDREN
  | MISSING_PERSON
  | UNIDENTIFIED_PERSON
  | VICTIM_OF_CRIME
  | SEEKING_INFORMATION
  | CAPTURED
  | UNSPECIFIED
deriving DecidableEq, Repr

/-- One raw image entry with its optional quality tiers. -/
structure FBIImage : Type where
  large : Option String := none
  thumb : Option String := none
  original : Option String := none
deriving DecidableEq, Repr

/-- The raw FBI record, restricted to the fields the normalizer reads.
Every field is optional: the record is untrusted runtime JSON and the source
guards each access with optional chaining or truthiness checks. -/
structure FBIWantedItem : Type where
  uid : Option String := none
  title : Option String := none
  description : Option String := none
  details : Option String := none
  remarks : Option String := none
  images : Option (List FBIImage) := none
  status : Option String := none
  poster_classification : Option String := none
  person_classification : Option String := none
  subjects : Option (List String) := none
  height_min : Option Nat := none
  height_max : Option Nat := none
deriving DecidableEq, Repr

/-- The normalized entity, restricted to the fields the claims are about. -/
structure WantedPerson : Type where
  id : String
  rawId : Option String
  name : Option String
  images : List String
  thumbnailUrl : String
  height : Option String
  charges : Option (List String)
  classification : PersonClassification
  status : Option String
deriving DecidableEq, Repr

/-- `item.subjects?.map(s => s.toLowerCase()) || []`. -/
def subjectsLower (item : FBIWantedItem) : List String :=
  (item.subjects.getD []).map jsToLower

/-- `item.title?.toLowerCase() || ""`. -/
def titleLower (item : FBIWantedItem) : String :=
  strOr (item.title.map jsToLower) ""

/-- `item.details?.toLowerCase() || ""`. -/
def detailsLower (item : FBIWantedItem) : String :=
  strOr (item.details.map jsToLower) ""

/-- `item.description?.toLowerCase() || ""`. -/
def descriptionLower (item : FBIWantedItem) : String :=
  strOr (item.description.map jsToLower) ""

/-- `item.remarks?.toLowerCase() || ""`. -/
def remarksLower (item : FBIWantedItem) : String :=
  strOr (item.remarks.map jsToLower) ""

/-- The lowercased free-text concatenation description + details + remarks. -/
def combinedTextLower (item : FBIWantedItem) : String :=
  descriptionLower item ++ " " ++ detailsLower item ++ " " ++ remarksLower item

/-- `item.poster_classification?.toLowerCase()`. -/
def posterClassLower (item : FBIWantedItem) : Option String :=
  item.poster_classification.map jsToLower

/-- `item.person_classification?.toLowerCase()`. -/
def personClassLower (item : FBIWantedItem) : Option String :=
  item.person_classification.map jsToLower

/-- The literal subject tag of the cyber category, with its apostrophe. -/
def cybersMostWanted : String := "cyber" ++ apos ++ "s most wanted"

/-- Stage 1: `item.status?.toLowerCase() === 'captured'`. -/
def capturedCheck (item : FBIWantedItem) : Bool :=
  (item.status.map jsToLower) == some "captured"

/-- Stage 2 cyber test on subjects (exact) and title (substring). -/
def cyberCheck (item : FBIWantedItem) : Bool :=
  (subjectsLower item).contains cybersMostWanted
  || strIncludes (titleLower item) cybersMostWanted

/-- Stage 2 crimes-against-children test. -/
def cacCheck (item : FBIWantedItem) : Bool :=
  (subjectsLower item).contains "crimes against children"
  || strIncludes (titleLower item) "crimes against children"

/-- Stage 3: classification from poster/person classification codes. -/
def initialClassification (item : FBIWantedItem) : PersonClassification :=
  if posterClassLower item == some "missing"
      || personClassLower item == some "missing person" then
    .MISSING_PERSON
  else if posterClassLower item == some "information"
      || personClassLower item == some "seeking information" then
    .SEEKING_INFORMATION
  else if posterClassLower item == some "victim"
      || personClassLower item == some "victim" then
    .UNSPECIFIED
  else
    .WANTED_CRIMINAL

/-- The guard `classification === 'WANTED_CRIMINAL' || classification === 'UNSPECIFIED'`. -/
def genericClass (c : PersonClassification) : Bool :=
  c == .WANTED_CRIMINAL || c == .UNSPECIFIED

/-- The identity-unknown title test that recurs through the cascade:
`titleLower.includes('unidentified') || titleLower.includes('jane doe') || titleLower.includes('john doe')`. -/
def titleDoeCheck (item : FBIWantedItem) : Bool :=
  strIncludes (titleLower item) "unidentified"
  || strIncludes (titleLower item) "jane doe"
  || strIncludes (titleLower item) "john doe"

/-- Stage 4: refinement from keywords inside subject tags. -/
def stage4Subjects (item : FBIWantedItem) (c : PersonClassification) :
    PersonClassification :=
  if genericClass c then
    if (subjectsLower item).any (fun s =>
        strIncludes s "vicap missing persons"
        || strIncludes s "kidnappings and missing persons"
        || strIncludes s "missing person") then
      .MISSING_PERSON
    else if (subjectsLower item).any (fun s => strIncludes s "seeking information") then
      .SEEKING_INFORMATION
    else if (subjectsLower item).any (fun s =>
        strIncludes s "vicap unidentified persons"
        || strIncludes s "unidentified human remains") then
      .UNIDENTIFIED_PERSON
    else if (subjectsLower item).any (fun s =>
        strIncludes s "vicap homicides and sexual assaults"
        || strIncludes s "homicide victim"
        || strIncludes s "sexual assault victim") then
      if titleDoeCheck item then .UNIDENTIFIED_PERSON else .VICTIM_OF_CRIME
    else c
  else c

/-- Stage 5: refinement from keywords in the title. -/
def stage5Title (item : FBIWantedItem) (c : PersonClassification) :
    PersonClassification :=
  if genericClass c then
    if strIncludes (titleLower item) "missing person"
        || (strIncludes (titleLower item) "missing"
            && !(strIncludes (titleLower item) "information for missing")) then
      .MISSING_PERSON
    else if strIncludes (titleLower item) "seeking information"
        || strIncludes (titleLower item) "information sought" then
      .SEEKING_INFORMATION
    else if titleDoeCheck item
        || strIncludes (titleLower item) "unidentified human remains" then
      .UNIDENTIFIED_PERSON
    else if strIncludes (titleLower item) "victim of homicide"
        || strIncludes (titleLower item) "sexual assault victim" then
      .VICTIM_OF_CRIME
    else c
  else c

/-- Stage 6: the deep free-text scan. Its first three branches are NOT guarded
by `genericClass` — the source comment calls it a "powerful override". -/
def stage6Core (item : FBIWantedItem) (ct : String) (c : PersonClassification) :
    PersonClassification :=
  if strIncludes ct "body was found"
      || strIncludes ct "victim of homicide"
      || strIncludes ct "died as a result"
      || strIncludes ct "suffered blunt force wounds"
      || strIncludes ct "evidence of strangulation"
      || (strIncludes ct "cause of death"
          && !(strIncludes ct "seeking information on cause of death")) then
    if titleDoeCheck item || strIncludes ct "unidentified human remains" then
      .UNIDENTIFIED_PERSON
    else
      .VICTIM_OF_CRIME
  else if strIncludes ct "unidentified person"
      || strIncludes ct "unidentified human remains"
      || strIncludes ct "jane doe"
      || strIncludes ct "john doe" then
    .UNIDENTIFIED_PERSON
  else if (strIncludes ct "was last seen"
        && (strIncludes ct "disappearance" || strIncludes ct "missing since"))
      || (strIncludes ct "missing person"
          && !(strIncludes (titleLower item) "information for missing")) then
    .MISSING_PERSON
  else if c == .WANTED_CRIMINAL
      && (strIncludes ct "seeking information"
          || strIncludes ct "information sought"
          || strIncludes ct "public assistance is requested"
          || strIncludes ct "anyone with information") then
    .SEEKING_INFORMATION
  else c

/-- Stage 6 applied to the record's own concatenated free text. -/
def stage6DeepText (item : FBIWantedItem) (c : PersonClassification) :
    PersonClassification :=
  stage6Core item (combinedTextLower item) c

/-- Stage 7: ViCAP disambiguation for records still `WANTED_CRIMINAL`. -/
def stage7Vicap (item : FBIWantedItem) (c : PersonClassification) :
    PersonClassification :=
  if c == .WANTED_CRIMINAL
      && ((subjectsLower item).contains "vicap"
          || strIncludes (titleLower item) "vicap") then
    if (subjectsLower item).any (fun s => strIncludes s "unidentified")
        || strIncludes (titleLower item) "unidentified"
        || (subjectsLower item).any (fun s => strIncludes s "victim")
        || strIncludes (titleLower item) "victim" then
      .UNIDENTIFIED_PERSON
    else if (subjectsLower item).any (fun s => strIncludes s "seeking information")
        || strIncludes (titleLower item) "seeking information" then
      .SEEKING_INFORMATION
    else c
  else c

/-- The per-subject "vague filler" test of stage 8:
`s.toLowerCase().includes("assistance") || s.match(months-or-year-or-comma) || locationDate.test(s)`. -/
def vagueSubject (s : String) : Bool :=
  strIncludes (jsToLower s) "assistance" || reMonthYearComma s.data || reLocDate s.data

/-- Stage 8: re-evaluation when subjects are empty or only vague filler. -/
def stage8Degenerate (item : FBIWantedItem) (c : PersonClassification) :
    PersonClassification :=
  match item.subjects with
  | some subs =>
    if c == .WANTED_CRIMINAL && (subs.isEmpty || subs.all vagueSubject) then
      if strIncludes (titleLower item) "missing" then .MISSING_PERSON
      else if strIncludes (titleLower item) "seeking information" then .SEEKING_INFORMATION
      else if titleDoeCheck item then .UNIDENTIFIED_PERSON
      else if strIncludes (titleLower item) "victim" then .VICTIM_OF_CRIME
      else if strIncludes (descriptionLower item) "missing person"
          || strIncludes (detailsLower item) "missing person" then .MISSING_PERSON
      else if strIncludes (descriptionLower item) "victim of homicide"
          || strIncludes (detailsLower item) "victim of homicide"
          || strIncludes (descriptionLower item) "body was found"
          || strIncludes (detailsLower item) "body was found" then .VICTIM_OF_CRIME
      else if subs.isEmpty && !(strTruthy item.title)
          && !(strTruthy item.description) && !(strTruthy item.details) then .UNSPECIFIED
      else c
    else c
  | none => c

/-- Final promotion: a still-`UNSPECIFIED` record with non-empty subjects
becomes `WANTED_CRIMINAL`. -/
def promoteUnspecified (item : FBIWantedItem) (c : PersonClassification) :
    PersonClassification :=
  if c == .UNSPECIFIED
      && (match item.subjects with
          | some l => decide (l.length > 0)
          | none => false) then
    .WANTED_CRIMINAL
  else c

/-- The full classification cascade of `normalizeFBIItem`. -/
def classifyFBIItem (item : FBIWantedItem) : PersonClassification :=
  if capturedCheck item then .CAPTURED
  else if cyberCheck item then .CYBER_MOST_WANTED
  else if cacCheck item then .CRIMES_AGAINST_CHILDREN
  else
    promoteUnspecified item
      (stage8Degenerate item
        (stage7Vicap item
          (stage6DeepText item
            (stage5Title item
              (stage4Subjects item
                (initialClassification item))))))

/-- `.filter(Boolean)` applied to one mapped optional URL. -/
def truthyStrOpt (o : Option String) : Option String :=
  match o with
  | some s => if s == "" then none else some s
  | none => none

/-- The priority-ordered candidate list: all truthy `large` URLs, then all
truthy `original` URLs. -/
def prioritizedImages (item : FBIWantedItem) : List String :=
  let objs := item.images.getD []
  (objs.filterMap fun img => truthyStrOpt img.large)
  ++ (objs.filterMap fun img => truthyStrOpt img.original)

/-- If the prioritized list is empty, fall back to the first truthy thumb. -/
def prioritizedWithThumb (item : FBIWantedItem) : List String :=
  let pri := prioritizedImages item
  if pri.isEmpty then
    match (item.images.getD []).filterMap (fun img => truthyStrOpt img.thumb) with
    | t :: _ => [t]
    | [] => []
  else pri

/-- `Array.from(new Set(prioritizedImages))`. -/
def uniqueImages (item : FBIWantedItem) : List String :=
  jsDedup (prioritizedWithThumb item)

/-- The deterministic placeholder URL, encoding `item.title || 'No Image'`. -/
def placeholderUrl (item : FBIWantedItem) : String :=
  "https://placehold.co/300x400.png?text="
  ++ encodeURIComponentModel (strOr item.title "No Image")

/-- `uniqueImages.length > 0 ? uniqueImages[0] : placeholder`. -/
def primaryDisplayImage (item : FBIWantedItem) : String :=
  match uniqueImages item with
  | u :: _ => u
  | [] => placeholderUrl item

/-- Bit length of a natural number, fuel-recursive so the kernel can
evaluate it (`Nat.log2` is well-founded and opaque to `decide`). The fuel
`n` always suffices since `n` exceeds its own bit length. -/
def bitLenAux : Nat → Nat → Nat
  | 0, _ => 0
  | fuel + 1, n => if n = 0 then 0 else bitLenAux fuel (n / 2) + 1

def bitLen (n : Nat) : Nat := bitLenAux n n

/-- Round `num / 2 ^ s` to the nearest integer, ties to even — the IEEE-754
binary64 rounding step. -/
def rneShift (num s : Nat) : Nat :=
  if s = 0 then num
  else
    let q := num / 2 ^ s
    let r := num % 2 ^ s
    let half := 2 ^ (s - 1)
    if half < r then q + 1
    else if r < half then q
    else if q % 2 = 0 then q else q + 1

/-- The binary64 double nearest to the literal `0.0254` is exactly
`7321051554253478 / 2 ^ 58` (53-bit significand, exponent −58). -/
def fp0254mant : Nat := 7321051554253478

/-- The IEEE-754 double product `inches * 0.0254` as an exact dyadic
rational `(m, t)` standing for `m / 2 ^ t`: the exact integer product
`inches * fp0254mant` over `2 ^ 58`, rounded to a 53-bit significand with
ties to even. Exact for every height below `2 ^ 53` inches (no overflow,
no subnormals in that range). -/
def mul0254Double (h : Nat) : Nat × Nat :=
  let num := h * fp0254mant
  let b := bitLen num
  if b ≤ 53 then (num, 58)
  else (rneShift num (b - 53), 58 - (b - 53))

/-- ECMA-262 `toFixed(2)` rounding: the integer `n` minimizing
`|n / 100 − x|` over the exact value `x = m / 2 ^ t` of the double, taking
the larger `n` on a tie (round half up). -/
def toFixed2Of (m t : Nat) : Nat :=
  let num := m * 100
  let q := num / 2 ^ t
  let r := num % 2 ^ t
  if 2 ^ t ≤ 2 * r then q + 1 else q

/-- `(inches * 0.0254).toFixed(2)`: the double product followed by
ECMA-262 `toFixed(2)` on the double's exact value (e.g. 70 → "1.78",
125 → "3.17" — the double `125 * 0.0254 = 3.17499999999999982…` rounds
down). -/
def metersToFixed2 (inches : Nat) : String :=
  let mt := mul0254Double inches
  let n := toFixed2Of mt.1 mt.2
  toString (n / 100) ++ "."
  ++ (if n % 100 < 10 then "0" ++ toString (n % 100)
      else toString (n % 100))

/-- The shared `${feet}'${inches}" (${metres}m)` format. -/
def feetInchesMeters (h : Nat) : String :=
  toString (h / 12) ++ apos ++ toString (h % 12) ++ "\" ("
  ++ metersToFixed2 h ++ "m)"

/-- The `heightStr` computation of `normalizeFBIItem`. -/
def heightString (item : FBIWantedItem) : Option String :=
  if natTruthy item.height_max && natTruthy item.height_min
      && item.height_min == item.height_max
      && decide (0 < item.height_max.getD 0) then
    some (feetInchesMeters (item.height_max.getD 0))
  else if natTruthy item.height_max && decide (0 < item.height_max.getD 0) then
    some (metersToFixed2 (item.height_max.getD 0) ++ "m (max)")
  else if natTruthy item.height_min && decide (0 < item.height_min.getD 0) then
    some ("At least " ++ feetInchesMeters (item.height_min.getD 0))
  else
    none

/-- The post-classification `actualCharges` switch of `normalizeFBIItem`,
as a function of the final classification. -/
def chargesFor (item : FBIWantedItem) (c : PersonClassification) :
    Option (List String) :=
  match c with
  | .CAPTURED => none
  | .CYBER_MOST_WANTED =>
    match item.subjects with
    | none => none
    | some l =>
      let f := l.filter fun s => !(jsToLower s == cybersMostWanted)
      if f.isEmpty then some ["Cyber Crimes"] else some f
  | .CRIMES_AGAINST_CHILDREN =>
    match item.subjects with
    | none => none
    | some l =>
      let f := l.filter fun s => !(jsToLower s == "crimes against children")
      if f.isEmpty then some ["Offenses against children"] else some f
  | .MISSING_PERSON => none
  | .SEEKING_INFORMATION => none
  | .UNIDENTIFIED_PERSON => none
  | .VICTIM_OF_CRIME => none
  | .UNSPECIFIED => none
  | .WANTED_CRIMINAL =>
    let ac0 : Option (List String) :=
      match item.subjects with
      | some l => if decide (0 < l.length) then some l else none
      | none => none
    let ac1 : Option (List String) :=
      match ac0 with
      | some l =>
        if l.any (fun s => reMonthYearComma s.data || reLocDate s.data) then
          if !(l.any fun s =>
              strIncludes (jsToLower s) "murder"
              || strIncludes (jsToLower s) "fugitive"
              || strIncludes (jsToLower s) "warrant"
              || strIncludes (jsToLower s) "unlawful flight") then
            none
          else some l
        else some l
      | none => none
    match ac1 with
    | some l => if l.isEmpty then none else some l
    | none => none

/-- `charges` of the normalized output. -/
def chargesFBIItem (item : FBIWantedItem) : Option (List String) :=
  chargesFor item (classifyFBIItem item)

/-- The normalizer `normalizeFBIItem`, restricted to the claimed fields. -/
def normalizeFBIItem (item : FBIWantedItem) : WantedPerson :=
  { id := "fbi-" ++ item.uid.getD "undefined"
    rawId := item.uid
    name := item.title
    images :=
      if decide (0 < (uniqueImages item).length) then uniqueImages item
      else [primaryDisplayImage item]
    thumbnailUrl := primaryDisplayImage item
    height := heightString item
    charges := chargesFBIItem item
    classification := classifyFBIItem item
    status := item.status }

/-- The per-page keep test `p => p.name && p.name.trim() !== ""`. -/
def keepPerson (p : WantedPerson) : Bool :=
  strTruthy p.name && !(jsTrim (strOr p.name "") == "")

/-- One page of raw items, normalized and filtered, as in
`response.items.map(normalizeFBIItem).filter(p => p.name && p.name.trim() !== "")`. -/
def processPageItems (items : List FBIWantedItem) : List WantedPerson :=
  (items.map normalizeFBIItem).filter keepPerson

/-- The decoded shape of one page response; `items` may be missing at
runtime, which the loop guards with `!response?.items`. -/
structure FBIWantedResponse : Type where
  total : Nat := 0
  items : Option (List FBIWantedItem) := none
deriving DecidableEq, Repr

/-- `const MAX_API_CALLS = 60`. -/
def MAX_API_CALLS : Nat := 60

/-- The observable outcome of the paginated fetch: the accumulated persons,
how many page requests were issued, and how many inter-page delays ran. -/
structure FetchStats : Type where
  persons : List WantedPerson
  calls : Nat
  delays : Nat
deriving Repr

/-- The body of the `for (let i = 0; i < MAX_API_CALLS; i++)` loop of
`getAllFBIWantedData`. `pages` stands for `fetchSingleFBIPage`: the response
the external source gives for each page number. `fuel` is the number of
loop iterations still allowed, so the loop structure is the recursion
structure. -/
def fbiFetchGo (pages : Nat → Option FBIWantedResponse) (itemsPerPage : Nat) :
    Nat → Nat → Nat → Nat → List WantedPerson → Nat → Nat → FetchStats
  | 0, _, _, _, acc, calls, delays => ⟨acc, calls, delays⟩
  | fuel + 1, i, currentPage, apiTotal, acc, calls, delays =>
    let delays1 := if 0 < i then delays + 1 else delays
    match pages currentPage with
    | none => ⟨acc, calls + 1, delays1⟩
    | some resp =>
      match resp.items with
      | none => ⟨acc, calls + 1, delays1⟩
      | some items =>
        let apiTotal1 := if i == 0 && !(resp.total == 0) then resp.total else apiTotal
        let acc1 := acc ++ processPageItems items
        if (decide (0 < apiTotal1) && decide (apiTotal1 ≤ acc1.length))
            || decide (items.length < itemsPerPage) then
          ⟨acc1, calls + 1, delays1⟩
        else
          fbiFetchGo pages itemsPerPage fuel (i + 1) (currentPage + 1) apiTotal1
            acc1 (calls + 1) delays1

/-- `new Map(l.map(p => [p.id, p]))` then `.values()`: keys keep their
first-insertion order, each key keeps its last value. -/
def jsMapDedup (l : List WantedPerson) : List WantedPerson :=
  (jsDedup (l.map fun p => p.id)).filterMap fun k =>
    (l.filter fun p => p.id == k).getLast?

/-- `getAllFBIWantedData`: run the bounded pagination loop from page 1,
then de-duplicate by `id`. -/
def getAllFBIWantedData (pages : Nat → Option FBIWantedResponse)
    (itemsPerPage : Nat) : FetchStats :=
  let st := fbiFetchGo pages itemsPerPage MAX_API_CALLS 0 1 0 [] 0 0
  ⟨jsMapDedup st.persons, st.calls, st.delays⟩

/-! Concrete records used as counterexamples and witnesses. -/

/-- A record whose free text — not the title — contains both a strong victim
phrase and "Jane Doe". -/
def cexFreeTextDoe : FBIWantedItem :=
  { title := some "Homicide in Rivertown",
    description := some "The body was found near the trail. Jane Doe remains on file." }

/-- A record whose subjects say missing person while the free text carries a
strong victim phrase. -/
def cexMissingThenVictim : FBIWantedItem :=
  { title := some "Case File",
    subjects := some ["ViCAP Missing Persons"],
    description := some "Her body was found in the river." }

/-- A record with a usable identifier but no title. -/
def cexUidNoTitle : FBIWantedItem := { uid := some "abc123" }

/-- A record with a usable identifier and a usable title. -/
def itemUidTitled : FBIWantedItem := { uid := some "abc123", title := some "X" }

/-- A captured record that also carries a criminal subject tag. -/
def itemCaptured : FBIWantedItem :=
  { status := some "Captured", subjects := some ["Murder"] }

/-- A record with a title identity-unknown marker. -/
def itemTitleDoe : FBIWantedItem := { title := some "Jane Doe Found" }

/-- A record whose poster classification is the provisional victim code and
that carries no subjects at all. -/
def itemPosterVictim : FBIWantedItem := { poster_classification := some "Victim" }

/-- A record with the explicit missing poster classification. -/
def itemPosterMissing : FBIWantedItem := { poster_classification := some "Missing" }

/-- Records exercising each height-formatting branch. -/
def itemH7070 : FBIWantedItem := { height_min := some 70, height_max := some 70 }

def itemH125 : FBIWantedItem := { height_min := some 125, height_max := some 125 }

def itemHMax72 : FBIWantedItem := { height_max := some 72 }

def itemHMin60 : FBIWantedItem := { height_min := some 60 }

def itemEmpty : FBIWantedItem := {}

/-! Helper lemmas. -/

theorem jsDedupAux_mem {α : Type} [DecidableEq α] :
    ∀ (l seen : List α) (a : α), a ∈ jsDedupAux seen l → a ∈ l ∧ a ∉ seen := by
  intro l
  induction l with
  | nil =>
    intro seen a h
    simp [jsDedupAux] at h
  | cons x xs ih =>
    intro seen a h
    rw [jsDedupAux] at h
    by_cases hx : x ∈ seen
    · rw [if_pos hx] at h
      rcases ih seen a h with ⟨h1, h2⟩
      exact ⟨List.mem_cons_of_mem _ h1, h2⟩
    · rw [if_neg hx] at h
      rcases List.mem_cons.mp h with rfl | h
      · exact ⟨List.mem_cons_self _ _, hx⟩
      · rcases ih (x :: seen) a h with ⟨h1, h2⟩
        exact ⟨List.mem_cons_of_mem _ h1,
          fun hs => h2 (List.mem_cons_of_mem _ hs)⟩

theorem jsDedupAux_nodup {α : Type} [DecidableEq α] :
    ∀ (l seen : List α), (jsDedupAux seen l).Nodup := by
  intro l
  induction l with
  | nil =>
    intro seen
    simp [jsDedupAux]
  | cons x xs ih =>
    intro seen
    rw [jsDedupAux]
    by_cases hx : x ∈ seen
    · rw [if_pos hx]
      exact ih seen
    · rw [if_neg hx]
      refine List.nodup_cons.mpr ⟨fun hmem => ?_, ih (x :: seen)⟩
      exact (jsDedupAux_mem xs (x :: seen) x hmem).2 (List.mem_cons_self _ _)

theorem jsDedup_nodup {α : Type} [DecidableEq α] (l : List α) :
    (jsDedup l).Nodup :=
  jsDedupAux_nodup l []

theorem initialClassification_ne_victim (item : FBIWantedItem) :
    initialClassification item ≠ PersonClassification.VICTIM_OF_CRIME := by
  unfold initialClassification
  split
  · decide
  · split
    · decide
    · split
      · decide
      · decide

theorem stage4_preserves_ne_victim (item : FBIWantedItem)
    (c : PersonClassification) (hdoe : titleDoeCheck item = true)
    (hc : c ≠ PersonClassification.VICTIM_OF_CRIME) :
    stage4Subjects item c ≠ PersonClassification.VICTIM_OF_CRIME := by
  unfold stage4Subjects
  split
  · split
    · decide
    · split
      · decide
      · split
        · decide
        · split
          · simp [hdoe]
          · exact hc
  · exact hc

theorem stage5_preserves_ne_victim (item : FBIWantedItem)
    (c : PersonClassification) (hdoe : titleDoeCheck item = true)
    (hc : c ≠ PersonClassification.VICTIM_OF_CRIME) :
    stage5Title item c ≠ PersonClassification.VICTIM_OF_CRIME := by
  unfold stage5Title
  split
  · split
    · decide
    · split
      · decide
      · split
        · decide
        · rename_i h3
          simp [hdoe] at h3
  · exact hc

theorem stage6_preserves_ne_victim (item : FBIWantedItem) (ct : String)
    (c : PersonClassification) (hdoe : titleDoeCheck item = true)
    (hc : c ≠ PersonClassification.VICTIM_OF_CRIME) :
    stage6Core item ct c ≠ PersonClassification.VICTIM_OF_CRIME := by
  unfold stage6Core
  split
  · simp [hdoe]
  · split
    · decide
    · split
      · decide
      · split
        · decide
        · exact hc

theorem stage7_preserves_ne_victim (item : FBIWantedItem)
    (c : PersonClassification)
    (hc : c ≠ PersonClassification.VICTIM_OF_CRIME) :
    stage7Vicap item c ≠ PersonClassification.VICTIM_OF_CRIME := by
  unfold stage7Vicap
  split
  · split
    · decide
    · split
      · decide
      · exact hc
  · exact hc

theorem stage8_preserves_ne_victim (item : FBIWantedItem)
    (c : PersonClassification) (hdoe : titleDoeCheck item = true)
    (hc : c ≠ PersonClassification.VICTIM_OF_CRIME) :
    stage8Degenerate item c ≠ PersonClassification.VICTIM_OF_CRIME := by
  unfold stage8Degenerate
  cases item.subjects with
  | none => exact hc
  | some subs =>
    simp only []
    split
    · split <;> simp_all
      all_goals (split <;> simp_all)
    · exact hc

theorem promote_preserves_ne_victim (item : FBIWantedItem)
    (c : PersonClassification)
    (hc : c ≠ PersonClassification.VICTIM_OF_CRIME) :
    promoteUnspecified item c ≠ PersonClassification.VICTIM_OF_CRIME := by
  unfold promoteUnspecified
  split
  · decide
  · exact hc

/-! Claim theorems. -/

/-- C1 (amended): for every record whose TITLE contains "unidentified",
"jane doe" or "john doe" (case-insensitively), the classification is never
`VICTIM_OF_CRIME`: at every cascade stage where the identity-unknown and the
victim rules could both match, the identity-unknown rule wins. -/
theorem c1_title_doe_never_victim (item : FBIWantedItem)
    (hdoe : titleDoeCheck item = true) :
    classifyFBIItem item ≠ PersonClassification.VICTIM_OF_CRIME := by
  unfold classifyFBIItem
  split
  · decide
  · split
    · decide
    · split
      · decide
      · exact promote_preserves_ne_victim item _
          (stage8_preserves_ne_victim item _ hdoe
            (stage7_preserves_ne_victim item _
              (stage6_preserves_ne_victim item (combinedTextLower item) _ hdoe
                (stage5_preserves_ne_victim item _ hdoe
                  (stage4_preserves_ne_victim item _ hdoe
                    (initialClassification_ne_victim item))))))

/-- C1 (counterexample): a record carrying "jane doe" only in its free text,
together with a strong victim phrase, is classified `VICTIM_OF_CRIME`, so the
free-text half of the claim fails. -/
theorem c1_counterexample :
    strIncludes (combinedTextLower cexFreeTextDoe) "jane doe" = true ∧
    classifyFBIItem cexFreeTextDoe = PersonClassification.VICTIM_OF_CRIME :=
  ⟨by decide, by decide⟩

/-- C1 (witness): the amended theorem applied to a concrete record whose
title contains "Jane Doe". -/
theorem c1_title_doe_never_victim_witness :
    titleDoeCheck itemTitleDoe = true ∧
    classifyFBIItem itemTitleDoe ≠ PersonClassification.VICTIM_OF_CRIME :=
  ⟨by decide, c1_title_doe_never_victim itemTitleDoe (by decide)⟩

/-- C2: a record whose status lowercases to "captured" is classified
`CAPTURED` — no later cascade stage applies — and its charges are null. -/
theorem c2_captured_absolute (item : FBIWantedItem) (s : String)
    (hs : item.status = some s) (hlow : jsToLower s = "captured") :
    classifyFBIItem item = PersonClassification.CAPTURED ∧
    chargesFBIItem item = none := by
  have hcap : capturedCheck item = true := by
    unfold capturedCheck
    rw [hs]
    simp [hlow]
  have hcl : classifyFBIItem item = PersonClassification.CAPTURED := by
    unfold classifyFBIItem
    simp [hcap]
  refine ⟨hcl, ?_⟩
  unfold chargesFBIItem
  rw [hcl]
  rfl

/-- C2 (witness): the captured rule applied to a concrete record that also
carries a criminal subject tag. -/
theorem c2_captured_absolute_witness :
    itemCaptured.status = some "Captured" ∧
    (classifyFBIItem itemCaptured = PersonClassification.CAPTURED ∧
     chargesFBIItem itemCaptured = none) :=
  ⟨rfl, c2_captured_absolute itemCaptured "Captured" rfl (by decide)⟩

/-- C3 (amended): stages 4, 5, 7, 8 and the final promotion all fix any
classification that is no longer generic; only the deep free-text scan
(stage 6) may override a specific classification. -/
theorem c3_guarded_stages_fix_specific (item : FBIWantedItem)
    (c : PersonClassification)
    (h1 : c ≠ PersonClassification.WANTED_CRIMINAL)
    (h2 : c ≠ PersonClassification.UNSPECIFIED) :
    stage4Subjects item c = c ∧ stage5Title item c = c ∧
    stage7Vicap item c = c ∧ stage8Degenerate item c = c ∧
    promoteUnspecified item c = c := by
  have hg : genericClass c = false := by
    cases c <;> simp_all [genericClass]
  have hw : (c == PersonClassification.WANTED_CRIMINAL) = false := by
    cases c <;> simp_all
  have hu : (c == PersonClassification.UNSPECIFIED) = false := by
    cases c <;> simp_all
  refine ⟨?_, ?_, ?_, ?_, ?_⟩
  · unfold stage4Subjects
    simp [hg]
  · unfold stage5Title
    simp [hg]
  · unfold stage7Vicap
    simp [hw]
  · unfold stage8Degenerate
    cases item.subjects with
    | none => rfl
    | some subs => simp [hw]
  · unfold promoteUnspecified
    simp [hu]

/-- C3 (counterexample): the subject-tag stage assigns the specific
classification `MISSING_PERSON`, yet the final classification is
`VICTIM_OF_CRIME` — the deep free-text scan reassigned it. -/
theorem c3_counterexample :
    stage4Subjects cexMissingThenVictim
      (initialClassification cexMissingThenVictim) =
      PersonClassification.MISSING_PERSON ∧
    classifyFBIItem cexMissingThenVictim =
      PersonClassification.VICTIM_OF_CRIME :=
  ⟨by decide, by decide⟩

/-- C3 (witness): the guarded stages leave `MISSING_PERSON` unchanged on a
concrete record. -/
theorem c3_guarded_stages_fix_specific_witness :
    stage4Subjects itemEmpty PersonClassification.MISSING_PERSON =
      PersonClassification.MISSING_PERSON ∧
    stage5Title itemEmpty PersonClassification.MISSING_PERSON =
      PersonClassification.MISSING_PERSON ∧
    stage7Vicap itemEmpty PersonClassification.MISSING_PERSON =
      PersonClassification.MISSING_PERSON ∧
    stage8Degenerate itemEmpty PersonClassification.MISSING_PERSON =
      PersonClassification.MISSING_PERSON ∧
    promoteUnspecified itemEmpty PersonClassification.MISSING_PERSON =
      PersonClassification.MISSING_PERSON :=
  c3_guarded_stages_fix_specific itemEmpty PersonClassification.MISSING_PERSON
    (by decide) (by decide)

/-- C4 (amended): with both bounds present, equal and positive the height is
`feet'inches" (X.XXm)`; with only a positive max it is `X.XXm (max)`; with
only a positive min it is `At least feet'inches" (X.XXm)` — the feet-inches
part is included, unlike the claimed `At least X.XXm`; with neither bound it
is null. -/
theorem c4_height_formatting (item : FBIWantedItem) :
    (∀ h : Nat, 0 < h → item.height_min = some h → item.height_max = some h →
      heightString item = some (feetInchesMeters h)) ∧
    (∀ h : Nat, 0 < h → item.height_min = none → item.height_max = some h →
      heightString item = some (metersToFixed2 h ++ "m (max)")) ∧
    (∀ h : Nat, 0 < h → item.height_min = some h → item.height_max = none →
      heightString item = some ("At least " ++ feetInchesMeters h)) ∧
    (item.height_min = none → item.height_max = none →
      heightString item = none) := by
  refine ⟨?_, ?_, ?_, ?_⟩
  · intro h hpos hmin hmax
    have hne : h ≠ 0 := Nat.pos_iff_ne_zero.mp hpos
    unfold heightString
    rw [hmin, hmax]
    simp [natTruthy, hne, hpos]
  · intro h hpos hmin hmax
    have hne : h ≠ 0 := Nat.pos_iff_ne_zero.mp hpos
    unfold heightString
    rw [hmin, hmax]
    simp [natTruthy, hne, hpos]
  · intro h hpos hmin hmax
    have hne : h ≠ 0 := Nat.pos_iff_ne_zero.mp hpos
    unfold heightString
    rw [hmin, hmax]
    simp [natTruthy, hne, hpos]
  · intro hmin hmax
    unfold heightString
    rw [hmin, hmax]
    simp [natTruthy]

/-- C4 (counterexample): min=60, max absent yields
`At least 5'0" (1.52m)`, not the claimed `At least 1.52m`. -/
theorem c4_counterexample :
    heightString itemHMin60 = some ("At least 5" ++ apos ++ "0\" (1.52m)") ∧
    ¬ heightString itemHMin60 = some "At least 1.52m" := by
  exact ⟨by decide, by decide⟩

/-- C4 (witness): the amended formatting theorem evaluated on the spec's
own sample inputs. -/
theorem c4_height_formatting_witness :
    heightString itemH7070 = some ("5" ++ apos ++ "10\" (1.78m)") ∧
    heightString itemHMax72 = some "1.83m (max)" ∧
    heightString itemHMin60 = some ("At least 5" ++ apos ++ "0\" (1.52m)") ∧
    heightString itemEmpty = none ∧
    heightString itemH125 = some ("10" ++ apos ++ "5\" (3.17m)") := by
  refine ⟨?_, ?_, ?_, ?_, ?_⟩
  · exact ((c4_height_formatting itemH7070).1 70 (by decide) rfl rfl).trans
      (by decide)
  · exact ((c4_height_formatting itemHMax72).2.1 72 (by decide) rfl rfl).trans
      (by decide)
  · exact ((c4_height_formatting itemHMin60).2.2.1 60 (by decide) rfl rfl).trans
      (by decide)
  · exact (c4_height_formatting itemEmpty).2.2.2 rfl rfl
  · exact ((c4_height_formatting itemH125).1 125 (by decide) rfl rfl).trans
      (by decide)

/-- C5: whenever the final classification is one of the non-criminal
categories, the charges field of the normalized output is null. -/
theorem c5_noncriminal_charges_null (item : FBIWantedItem)
    (h : classifyFBIItem item = PersonClassification.MISSING_PERSON ∨
         classifyFBIItem item = PersonClassification.UNIDENTIFIED_PERSON ∨
         classifyFBIItem item = PersonClassification.SEEKING_INFORMATION ∨
         classifyFBIItem item = PersonClassification.VICTIM_OF_CRIME ∨
         classifyFBIItem item = PersonClassification.CAPTURED ∨
         classifyFBIItem item = PersonClassification.UNSPECIFIED) :
    chargesFBIItem item = none := by
  unfold chargesFBIItem
  rcases h with h | h | h | h | h | h <;> rw [h] <;> rfl

/-- C5 (witness): a record with the explicit missing poster code classifies
as `MISSING_PERSON` and carries null charges. -/
theorem c5_noncriminal_charges_null_witness :
    classifyFBIItem itemPosterMissing = PersonClassification.MISSING_PERSON ∧
    chargesFBIItem itemPosterMissing = none :=
  ⟨by decide, c5_noncriminal_charges_null itemPosterMissing (Or.inl (by decide))⟩

/-- C7 (counterexample): a record WITH a usable identifier but no title is
dropped from the batch, so "dropped only when the identifier is missing"
fails on the code — the filter tests the name, not the identifier. -/
theorem c7_counterexample :
    cexUidNoTitle.uid = some "abc123" ∧
    processPageItems [cexUidNoTitle] = [] :=
  ⟨rfl, by decide⟩

/-- C7 (amended): a record survives the batch exactly when its normalized
name (the raw title) is present and not whitespace-only: every such record
appears in the batch output, and every output record passes the name test;
normalization itself is total, so one malformed record never fails the
whole batch. -/
theorem c7_batch_drop_characterization (items : List FBIWantedItem) :
    (∀ item ∈ items, keepPerson (normalizeFBIItem item) = true →
      normalizeFBIItem item ∈ processPageItems items) ∧
    (∀ p ∈ processPageItems items, keepPerson p = true) := by
  constructor
  · intro item hmem hkeep
    unfold processPageItems
    exact List.mem_filter.mpr ⟨List.mem_map_of_mem _ hmem, hkeep⟩
  · intro p hp
    unfold processPageItems at hp
    exact (List.mem_filter.mp hp).2

/-- C7 (witness): a titled record with an identifier is kept. -/
theorem c7_batch_drop_characterization_witness :
    keepPerson (normalizeFBIItem itemUidTitled) = true ∧
    normalizeFBIItem itemUidTitled ∈ processPageItems [itemUidTitled] :=
  ⟨by decide,
   (c7_batch_drop_characterization [itemUidTitled]).1 itemUidTitled
     (List.mem_singleton.mpr rfl) (by decide)⟩

/-- C9: a record whose final classification is `UNSPECIFIED` has an absent
or empty subject list — the final promotion step sends `UNSPECIFIED` with
non-empty subjects to `WANTED_CRIMINAL`. -/
theorem c9_unspecified_no_subjects (item : FBIWantedItem)
    (h : classifyFBIItem item = PersonClassification.UNSPECIFIED) :
    item.subjects = none ∨ item.subjects = some [] := by
  cases hsub : item.subjects with
  | none => exact Or.inl rfl
  | some l =>
    cases l with
    | nil => exact Or.inr rfl
    | cons x xs =>
      exfalso
      unfold classifyFBIItem at h
      split at h
      · exact absurd h (by decide)
      · split at h
        · exact absurd h (by decide)
        · split at h
          · exact absurd h (by decide)
          · unfold promoteUnspecified at h
            rw [hsub] at h
            split at h
            · exact absurd h (by decide)
            · rename_i hcond
              rw [h] at hcond
              simp at hcond

/-- C9 (witness): a provisional-victim record with no subjects stays
`UNSPECIFIED`, and its subject list is indeed absent. -/
theorem c9_unspecified_no_subjects_witness :
    classifyFBIItem itemPosterVictim = PersonClassification.UNSPECIFIED ∧
    (itemPosterVictim.subjects = none ∨ itemPosterVictim.subjects = some []) :=
  ⟨by decide, c9_unspecified_no_subjects itemPosterVictim (by decide)⟩

/-- C6: the normalized images list is never empty and has no duplicate URLs;
when the record yields no usable image URL it is exactly the singleton
placeholder derived from the record's title; the thumbnail is the first
image; and the classification is always one of the nine enum values. -/
theorem c6_images_invariants (item : FBIWantedItem) :
    (normalizeFBIItem item).images ≠ [] ∧
    (normalizeFBIItem item).images.Nodup ∧
    (normalizeFBIItem item).images.head? =
      some (normalizeFBIItem item).thumbnailUrl ∧
    (uniqueImages item = [] →
      (normalizeFBIItem item).images = [placeholderUrl item]) ∧
    (normalizeFBIItem item).classification ∈
      [PersonClassification.WANTED_CRIMINAL,
       PersonClassification.CYBER_MOST_WANTED,
       PersonClassification.CRIMES_AGAINST_CHILDREN,
       PersonClassification.MISSING_PERSON,
       PersonClassification.UNIDENTIFIED_PERSON,
       PersonClassification.VICTIM_OF_CRIME,
       PersonClassification.SEEKING_INFORMATION,
       PersonClassification.CAPTURED,
       PersonClassification.UNSPECIFIED] := by
  have hnodup : (uniqueImages item).Nodup := jsDedup_nodup (prioritizedWithThumb item)
  have hmem : (normalizeFBIItem item).classification ∈
      [PersonClassification.WANTED_CRIMINAL,
       PersonClassification.CYBER_MOST_WANTED,
       PersonClassification.CRIMES_AGAINST_CHILDREN,
       PersonClassification.MISSING_PERSON,
       PersonClassification.UNIDENTIFIED_PERSON,
       PersonClassification.VICTIM_OF_CRIME,
       PersonClassification.SEEKING_INFORMATION,
       PersonClassification.CAPTURED,
       PersonClassification.UNSPECIFIED] := by
    cases hc : (normalizeFBIItem item).classification <;> simp
  cases h : uniqueImages item with
  | nil =>
    refine ⟨?_, ?_, ?_, fun _ => ?_, hmem⟩
    · simp [normalizeFBIItem, h]
    · simp [normalizeFBIItem, h]
    · simp [normalizeFBIItem, primaryDisplayImage, h]
    · simp [normalizeFBIItem, primaryDisplayImage, h]
  | cons u us =>
    have hlen : decide (0 < (uniqueImages item).length) = true := by
      rw [h]
      simp
    refine ⟨?_, ?_, ?_, fun hnil => ?_, hmem⟩
    · simp [normalizeFBIItem, hlen, h]
    · have : (normalizeFBIItem item).images = uniqueImages item := by
        simp [normalizeFBIItem, hlen]
      rw [this]
      exact hnodup
    · simp [normalizeFBIItem, primaryDisplayImage, hlen, h]
    · exact absurd hnil (List.cons_ne_nil u us)

/-- C6 (witness): a record with no image data at all gets exactly the
placeholder singleton. -/
theorem c6_images_invariants_witness :
    (normalizeFBIItem itemEmpty).images = [placeholderUrl itemEmpty] ∧
    (normalizeFBIItem itemEmpty).images ≠ [] :=
  ⟨(c6_images_invariants itemEmpty).2.2.2.1 (by decide),
   (c6_images_invariants itemEmpty).1⟩

theorem fbiFetchGo_calls_le (pages : Nat → Option FBIWantedResponse) (pp : Nat) :
    ∀ (fuel i page total : Nat) (acc : List WantedPerson) (c d : Nat),
      (fbiFetchGo pages pp fuel i page total acc c d).calls ≤ c + fuel := by
  intro fuel
  induction fuel with
  | zero =>
    intro i page total acc c d
    simp [fbiFetchGo]
  | succ n ih =>
    intro i page total acc c d
    cases hp : pages page with
    | none =>
      simp [fbiFetchGo, hp]
      try omega
    | some resp =>
      cases hi : resp.items with
      | none =>
        simp [fbiFetchGo, hp, hi]
        try omega
      | some its =>
        cases ht : (i == 0 && !(resp.total == 0)) with
        | true =>
          simp only [fbiFetchGo, hp, hi, ht, if_true]
          split
          · simp
            try omega
          · refine le_trans (ih _ _ _ _ _ _) ?_
            try omega
        | false =>
          simp only [fbiFetchGo, hp, hi, ht, if_false, Bool.false_eq_true]
          split
          · simp
            try omega
          · refine le_trans (ih _ _ _ _ _ _) ?_
            try omega

theorem fbiFetchGo_calls_delays (pages : Nat → Option FBIWantedResponse)
    (pp : Nat) :
    ∀ (fuel i page total : Nat) (acc : List WantedPerson) (c d : Nat), 1 ≤ i →
      (fbiFetchGo pages pp fuel i page total acc c d).calls + d =
      (fbiFetchGo pages pp fuel i page total acc c d).delays + c := by
  intro fuel
  induction fuel with
  | zero =>
    intro i page total acc c d hi
    simp [fbiFetchGo]
    try omega
  | succ n ih =>
    intro i page total acc c d hi
    have hipos : 0 < i := hi
    cases hp : pages page with
    | none =>
      simp [fbiFetchGo, hp, hipos]
      try omega
    | some resp =>
      cases hi2 : resp.items with
      | none =>
        simp [fbiFetchGo, hp, hi2, hipos]
        try omega
      | some its =>
        cases ht : (i == 0 && !(resp.total == 0)) with
        | true =>
          simp only [fbiFetchGo, hp, hi2, ht, if_true, hipos, if_pos]
          split
          · simp
            try omega
          · have h2 := ih (i + 1) (page + 1) resp.total
              (acc ++ processPageItems its) (c + 1) (d + 1) (by omega)
            try omega
        | false =>
          simp only [fbiFetchGo, hp, hi2, ht, if_false, Bool.false_eq_true,
            hipos, if_pos]
          split
          · simp
            try omega
          · have h2 := ih (i + 1) (page + 1) total
              (acc ++ processPageItems its) (c + 1) (d + 1) (by omega)
            try omega

theorem fbiFetchGo_start_calls_delays (pages : Nat → Option FBIWantedResponse)
    (pp fuel page total : Nat) (acc : List WantedPerson) (c d : Nat) :
    (fbiFetchGo pages pp (fuel + 1) 0 page total acc c d).calls + d =
    (fbiFetchGo pages pp (fuel + 1) 0 page total acc c d).delays + c + 1 := by
  cases hp : pages page with
  | none =>
    simp [fbiFetchGo, hp]
    try omega
  | some resp =>
    cases hi : resp.items with
    | none =>
      simp [fbiFetchGo, hp, hi]
      try omega
    | some its =>
      cases ht : ((0 : Nat) == 0 && !(resp.total == 0)) with
      | true =>
        simp only [fbiFetchGo, hp, hi, ht, if_true]
        split
        · simp
          try omega
        · have h2 := fbiFetchGo_calls_delays pages pp fuel 1 (page + 1)
            resp.total (acc ++ processPageItems its) (c + 1)
            (if 0 < 0 then d + 1 else d) (le_refl 1)
          simp at h2
          simp
          try omega
      | false =>
        simp only [fbiFetchGo, hp, hi, ht, if_false, Bool.false_eq_true]
        split
        · simp
          try omega
        · have h2 := fbiFetchGo_calls_delays pages pp fuel 1 (page + 1)
            total (acc ++ processPageItems its) (c + 1)
            (if 0 < 0 then d + 1 else d) (le_refl 1)
          simp at h2
          simp
          try omega

/-- C8: the paginated fetch issues at most `MAX_API_CALLS` page requests —
for every possible sequence of page responses, including ones that never
signal a last page — and runs exactly one inter-page delay between each pair
of successive requests (calls = delays + 1). -/
theorem c8_pagination_bounded (pages : Nat → Option FBIWantedResponse)
    (pp : Nat) :
    (getAllFBIWantedData pages pp).calls ≤ MAX_API_CALLS ∧
    (getAllFBIWantedData pages pp).calls =
      (getAllFBIWantedData pages pp).delays + 1 := by
  constructor
  · have h := fbiFetchGo_calls_le pages pp MAX_API_CALLS 0 1 0 [] 0 0
    simpa [getAllFBIWantedData] using h
  · have h := fbiFetchGo_start_calls_delays pages pp 59 1 0 [] 0 0
    have hmax : (fbiFetchGo pages pp MAX_API_CALLS 0 1 0 [] 0 0) =
        (fbiFetchGo pages pp (59 + 1) 0 1 0 [] 0 0) := rfl
    simp only [getAllFBIWantedData, hmax]
    omega

theorem lastFilter_id (l : List WantedPerson) (k : String) (p : WantedPerson)
    (h : (l.filter fun q => q.id == k).getLast? = some p) : p.id = k := by
  have hmem : p ∈ l.filter fun q => q.id == k := by
    rcases List.mem_getLast?_eq_getLast h with ⟨hne, hpe⟩
    exact hpe ▸ List.getLast_mem hne
  have := List.of_mem_filter hmem
  simpa using this

theorem filterMapLast_ids_nodup (l : List WantedPerson) :
    ∀ keys : List String, keys.Nodup →
      ((keys.filterMap fun k => (l.filter fun q => q.id == k).getLast?).map
        fun p => p.id).Nodup := by
  intro keys
  induction keys with
  | nil =>
    intro _
    simp
  | cons k ks ih =>
    intro hnd
    rw [List.filterMap_cons]
    cases hf : (l.filter fun q => q.id == k).getLast? with
    | none => exact ih (List.nodup_cons.mp hnd).2
    | some p =>
      rw [List.map_cons]
      refine List.nodup_cons.mpr ⟨?_, ih (List.nodup_cons.mp hnd).2⟩
      intro hmemmap
      rcases List.mem_map.mp hmemmap with ⟨q, hq, hqid⟩
      rcases List.mem_filterMap.mp hq with ⟨k2, hk2, hfk2⟩
      have hq2 : q.id = k2 := lastFilter_id l k2 q hfk2
      have hp2 : p.id = k := lastFilter_id l k p hf
      have hkk : k = k2 := by
        rw [← hp2, ← hq2, hqid]
      exact (List.nodup_cons.mp hnd).1 (hkk ▸ hk2)

theorem jsMapDedup_ids_nodup (l : List WantedPerson) :
    ((jsMapDedup l).map fun p => p.id).Nodup := by
  unfold jsMapDedup
  exact filterMapLast_ids_nodup l _ (jsDedup_nodup _)

/-- C10: the ids of the list returned by the full paginated fetch are
pairwise distinct — the merged pages are de-duplicated by id. -/
theorem c10_fetch_ids_nodup (pages : Nat → Option FBIWantedResponse)
    (pp : Nat) :
    (((getAllFBIWantedData pages pp).persons).map fun p => p.id).Nodup := by
  unfold getAllFBIWantedData
  exact jsMapDedup_ids_nodup _
